import Mathlib

/-!
Verification of the shy-light signal-conditioning core: a shallow embedding of
the frame-merge step (src/main.py, build_detection_result and the suppression
rule), the perception detection step and the expression detector's error
recovery (src/main.py, src/detectors/expression.py), and the debounce/idle
state machine (src/state/manager.py, src/state/schema.py).

Python floats that are only moved around (never computed with) are modelled as
rationals; wall-clock instants from time.monotonic() are passed explicitly as a
rational parameter.  Python code that can raise on a reachable path is modelled
with Option or Except so that the crash is visible in the model.
-/

namespace ShyLight

/-! Discrete enums, from src/state/schema.py. -/

inductive Proximity
  | close | medium | far | none
deriving DecidableEq, Repr

inductive Expression
  | smile | angry | sad | neutral | none
deriving DecidableEq, Repr

inductive Gesture
  | peekaboo | none
deriving DecidableEq, Repr

/-- The .value string of each Proximity member. -/
def Proximity.value : Proximity → String
  | .close => "close"
  | .medium => "medium"
  | .far => "far"
  | .none => "none"

/-- The .value string of each Expression member. -/
def Expression.value : Expression → String
  | .smile => "smile"
  | .angry => "angry"
  | .sad => "sad"
  | .neutral => "neutral"
  | .none => "none"

/-- The .value string of each Gesture member. -/
def Gesture.value : Gesture → String
  | .peekaboo => "peekaboo"
  | .none => "none"

/-- DetectionResult from src/state/schema.py.  The four constructor parameters
always exist and carry the documented defaults.  The remaining attributes are
set dynamically by build_detection_result in src/main.py only when some
backend reported the corresponding key, so they are modelled as Option fields
whose Option.none means the attribute is absent from the object.  A bbox value
may itself be Python None, hence the nested Option. -/
structure DetectionResult where
  proximity : Proximity := Proximity.none
  expression : Expression := Expression.none
  gesture : Gesture := Gesture.none
  proximity_value : ℚ := 0
  face_x : Option ℚ := Option.none
  face_y : Option ℚ := Option.none
  hand_right_x : Option ℚ := Option.none
  hand_right_y : Option ℚ := Option.none
  hand_left_x : Option ℚ := Option.none
  hand_left_y : Option ℚ := Option.none
  face_bbox : Option (Option (ℚ × ℚ × ℚ × ℚ)) := Option.none
  hand_right_bbox : Option (Option (ℚ × ℚ × ℚ × ℚ)) := Option.none
  hand_left_bbox : Option (Option (ℚ × ℚ × ℚ × ℚ)) := Option.none
deriving DecidableEq, Repr

/-! Frame merge, from src/main.py build_detection_result.  A detector output
is a Python dict holding a subset of the keys read by build_detection_result;
it is modelled as a dependent function assigning to every key an optional
well-typed value, where Option.none means the key is absent from the dict. -/

inductive Key
  | proximity | proximity_value | expression | gesture
  | face_x | face_y
  | hand_right_x | hand_right_y | hand_left_x | hand_left_y
  | face_bbox | hand_right_bbox | hand_left_bbox
deriving DecidableEq, Repr

def Key.ValType : Key → Type
  | .proximity => Proximity
  | .expression => Expression
  | .gesture => Gesture
  | .face_bbox | .hand_right_bbox | .hand_left_bbox => Option (ℚ × ℚ × ℚ × ℚ)
  | _ => ℚ

def Obs : Type := (k : Key) → Option k.ValType

/-- The empty accumulator dict at the top of build_detection_result. -/
def emptyObs : Obs := fun _ => Option.none

/-- One step of the merge loop: merged.update(output).  Keys present in the
output dict overwrite the accumulator; absent keys leave it untouched. -/
def dictUpdate (acc out : Obs) : Obs := fun k =>
  match out k with
  | some v => some v
  | Option.none => acc k

/-- The merge loop of build_detection_result: fold the ordered detector
outputs into the accumulator dict. -/
def mergeAll (raw_outputs : List Obs) : Obs :=
  raw_outputs.foldl dictUpdate emptyObs

/-- build_detection_result from src/main.py: start from a fresh
DetectionResult and copy each key of the merged dict that is present onto the
object.  Keys absent from the merged dict leave the constructor defaults in
place for the four constructor fields and leave the dynamic attributes unset. -/
def build_detection_result (raw_outputs : List Obs) : DetectionResult :=
  let merged := mergeAll raw_outputs
  { proximity := (merged Key.proximity).getD Proximity.none
    proximity_value := (merged Key.proximity_value).getD (0 : ℚ)
    expression := (merged Key.expression).getD Expression.none
    gesture := (merged Key.gesture).getD Gesture.none
    face_x := merged Key.face_x
    face_y := merged Key.face_y
    hand_right_x := merged Key.hand_right_x
    hand_right_y := merged Key.hand_right_y
    hand_left_x := merged Key.hand_left_x
    hand_left_y := merged Key.hand_left_y
    face_bbox := merged Key.face_bbox
    hand_right_bbox := merged Key.hand_right_bbox
    hand_left_bbox := merged Key.hand_left_bbox }

/-- The peekaboo suppression applied in the main loop of src/main.py after the
merge and before the state manager sees the result. -/
def suppress_peekaboo (detection : DetectionResult) : DetectionResult :=
  if detection.gesture = Gesture.peekaboo then
    { detection with expression := Expression.none }
  else detection

/-! Detection step of the main loop, src/main.py: the list comprehension
running every detector on the frame.  Each backend call either returns its
partial output dict or raises; the comprehension has no exception handler, so
the first raising detector aborts the whole step. -/

def detectFrame (calls : List (Except Unit Obs)) : Except Unit (List Obs) :=
  match calls with
  | [] => Except.ok []
  | c :: rest =>
    match c with
    | Except.error e => Except.error e
    | Except.ok out =>
      match detectFrame rest with
      | Except.error e => Except.error e
      | Except.ok outs => Except.ok (out :: outs)

/-! ExpressionDetector, from src/detectors/expression.py. -/

/-- The dict returned by ExpressionDetector.detect: only the expression key. -/
def exprObs (e : Expression) : Obs := fun k =>
  match k with
  | Key.expression => some e
  | _ => Option.none

/-- The EMOTION_MAP lookup of src/detectors/expression.py, as dict.get. -/
def emotionMap (label : String) : Option Expression :=
  if label = "happy" then some Expression.smile
  else if label = "angry" then some Expression.angry
  else if label = "sad" then some Expression.sad
  else if label = "neutral" then some Expression.neutral
  else if label = "fear" then some Expression.neutral
  else if label = "disgust" then some Expression.neutral
  else if label = "surprise" then some Expression.neutral
  else Option.none

/-- One entry of the DeepFace analysis list: its dominant emotion label and
that label's confidence score. -/
structure AnalysisEntry where
  dominant_emotion : String
  confidence : ℚ
deriving DecidableEq, Repr

structure ExpressionDetectorState where
  analyze_every_n_frames : Nat
  frame_count : Nat
  last_result : Expression
deriving DecidableEq, Repr

/-- ExpressionDetector.detect.  The outcome of the DeepFace analyze call is an
explicit parameter: Except.error models the call raising, Except.ok the list
of per-face analyses.  The try block catches any error and holds the previous
value; on a skipped frame the held value is returned without analyzing. -/
def ExpressionDetector.detect (st : ExpressionDetectorState)
    (analyzeOutcome : Except Unit (List AnalysisEntry)) :
    ExpressionDetectorState × Obs :=
  let st := { st with frame_count := st.frame_count + 1 }
  if st.frame_count % st.analyze_every_n_frames ≠ 0 then
    (st, exprObs st.last_result)
  else
    let expr :=
      match analyzeOutcome with
      | Except.error _ => st.last_result
      | Except.ok analyses =>
        match analyses with
        | [] => Expression.none
        | a :: _ =>
          if a.confidence < 40 then Expression.neutral
          else (emotionMap a.dominant_emotion).getD Expression.neutral
    ({ st with last_result := expr }, exprObs expr)

/-! Debounce/idle state machine, from src/state/manager.py. -/

structure StateManager where
  debounce_frames : Nat
  idle_timeout_seconds : ℚ
  confirmed : DetectionResult
  hist_proximity : List Proximity
  hist_expression : List Expression
  hist_gesture : List Gesture
  last_face_seen_at : ℚ
  idle : Bool
deriving DecidableEq, Repr

/-- StateManager.__init__: empty histories, default confirmed state, idle
timestamp set to the current time, not idle. -/
def StateManager.init (debounce_frames : Nat) (idle_timeout_seconds : ℚ)
    (now : ℚ) : StateManager :=
  { debounce_frames := debounce_frames
    idle_timeout_seconds := idle_timeout_seconds
    confirmed := {}
    hist_proximity := []
    hist_expression := []
    hist_gesture := []
    last_face_seen_at := now
    idle := false }

/-- Appending to a collections.deque with the given maxlen: the element goes
to the right and, if the capacity is exceeded, the leftmost entries are
silently discarded. -/
def pushWindow {α : Type} (maxlen : Nat) (history : List α) (v : α) : List α :=
  let h2 := history ++ [v]
  if maxlen < h2.length then h2.drop (h2.length - maxlen) else h2

/-- The per-field body of the loop in StateManager.update: skip the field
while its history is shorter than debounce_frames, otherwise read the
candidate from the back of the window and confirm it when the window is
unanimous and the candidate differs from the confirmed value.  The result is
the new confirmed value together with the change entries appended for this
field; Option.none models the IndexError that reading the back of an empty
deque raises (reachable only with debounce_frames = 0). -/
def debounceField {α : Type} [DecidableEq α] (debounce_frames : Nat)
    (fieldName : String) (valueStr : α → String)
    (history : List α) (confirmed : α) :
    Option (α × List (String × String)) :=
  if history.length < debounce_frames then some (confirmed, [])
  else
    match history.getLast? with
    | Option.none => Option.none
    | some candidate =>
      if history.all (fun v => v = candidate) then
        if candidate ≠ confirmed then
          some (candidate, [(fieldName, valueStr candidate)])
        else some (confirmed, [])
      else some (confirmed, [])

/-- The normal debounce part of StateManager.update: append the raw values to
the three history deques, then visit the fields in the dict insertion order
proximity, expression, gesture, accumulating the change list. -/
def debounceUpdate (s : StateManager) (raw : DetectionResult) :
    Option (List (String × String) × StateManager) :=
  let hp := pushWindow s.debounce_frames s.hist_proximity raw.proximity
  let he := pushWindow s.debounce_frames s.hist_expression raw.expression
  let hg := pushWindow s.debounce_frames s.hist_gesture raw.gesture
  match debounceField s.debounce_frames "proximity" Proximity.value hp
      s.confirmed.proximity with
  | Option.none => Option.none
  | some (cp, chp) =>
    match debounceField s.debounce_frames "expression" Expression.value he
        s.confirmed.expression with
    | Option.none => Option.none
    | some (ce, che) =>
      match debounceField s.debounce_frames "gesture" Gesture.value hg
          s.confirmed.gesture with
      | Option.none => Option.none
      | some (cg, chg) =>
        some (chp ++ che ++ chg,
          { s with
            hist_proximity := hp
            hist_expression := he
            hist_gesture := hg
            confirmed := { s.confirmed with
              proximity := cp, expression := ce, gesture := cg } })

/-- StateManager._reset_to_idle: for each field of IDLE_DEFAULTS in order, if
the confirmed value differs from the default record the change and set the
default; then clear every history deque. -/
def reset_to_idle (s : StateManager) : List (String × String) × StateManager :=
  let chp := if s.confirmed.proximity ≠ Proximity.none then
      [("proximity", Proximity.none.value)] else []
  let che := if s.confirmed.expression ≠ Expression.none then
      [("expression", Expression.none.value)] else []
  let chg := if s.confirmed.gesture ≠ Gesture.none then
      [("gesture", Gesture.none.value)] else []
  (chp ++ che ++ chg,
    { s with
      confirmed := { s.confirmed with
        proximity := Proximity.none
        expression := Expression.none
        gesture := Gesture.none }
      hist_proximity := []
      hist_expression := []
      hist_gesture := [] })

/-- The first step of StateManager.update: when the raw proximity is not
NONE, unconditionally stamp the idle timer with the current time and clear
the idle flag. -/
def trackFace (s : StateManager) (raw : DetectionResult) (now : ℚ) :
    StateManager :=
  if raw.proximity ≠ Proximity.none then
    { s with last_face_seen_at := now, idle := false }
  else s

/-- StateManager.update, with the time.monotonic() reading passed in
explicitly as now.  Option.none models the IndexError reachable in the
debounce loop when debounce_frames = 0. -/
def StateManager.update (s : StateManager) (raw : DetectionResult)
    (now : ℚ) : Option (List (String × String) × StateManager) :=
  let s1 := trackFace s raw now
  if s1.idle = false ∧ s1.idle_timeout_seconds ≤ now - s1.last_face_seen_at
  then some (reset_to_idle { s1 with idle := true })
  else if s1.idle = true then some ([], s1)
  else debounceUpdate s1 raw

/-- Feeding a list of raw frame results to the state manager one update call
after another, all calls observing the same clock reading; returns the change
list of every call plus the final state. -/
def runTrace (s : StateManager) (raws : List DetectionResult) (now : ℚ) :
    Option (List (List (String × String)) × StateManager) :=
  match raws with
  | [] => some ([], s)
  | r :: rest =>
    match s.update r now with
    | Option.none => Option.none
    | some (ch, s1) =>
      match runTrace s1 rest now with
      | Option.none => Option.none
      | some (chs, s2) => some (ch :: chs, s2)

/-! Specification-level vocabulary used to state the claims. -/

/-- The last n entries of a list (the whole list when it is shorter). -/
def lastN {α : Type} (n : Nat) (l : List α) : List α := l.drop (l.length - n)

/-- Specification-level description of one field's debounce outcome on a
window that already holds the just-appended candidate: the candidate is
confirmed and a change entry emitted exactly when the window is full, every
entry equals the candidate, and the candidate differs from the confirmed
value; otherwise the confirmed value stands and nothing is emitted. -/
def fieldChange {α : Type} [DecidableEq α] (debounce_frames : Nat)
    (window : List α) (confirmed candidate : α)
    (fieldName : String) (valueStr : α → String) :
    α × List (String × String) :=
  if debounce_frames ≤ window.length ∧ (∀ x ∈ window, x = candidate) ∧
      candidate ≠ confirmed
  then (candidate, [(fieldName, valueStr candidate)])
  else (confirmed, [])

/-! Window lemmas. -/

lemma pushWindow_eq_drop {α : Type} (maxlen : Nat) (h : List α) (v : α) :
    pushWindow maxlen h v = (h ++ [v]).drop (h.length + 1 - maxlen) := by
  simp only [pushWindow, List.length_append, List.length_singleton]
  split
  · rfl
  · next hc =>
    have h0 : h.length + 1 - maxlen = 0 := by omega
    rw [h0, List.drop_zero]

lemma length_pushWindow {α : Type} (m : Nat) (h : List α) (v : α) :
    (pushWindow m h v).length = min (h.length + 1) m := by
  rw [pushWindow_eq_drop]
  simp only [List.length_drop, List.length_append, List.length_singleton]
  omega

lemma pushWindow_suffix {α : Type} (m : Nat) (h : List α) (v : α) :
    pushWindow m h v <:+ h ++ [v] := by
  rw [pushWindow_eq_drop]
  exact List.drop_suffix _ _

lemma getLast?_pushWindow {α : Type} (m : Nat) (hm : 1 ≤ m) (h : List α)
    (v : α) : (pushWindow m h v).getLast? = some v := by
  rw [pushWindow_eq_drop]
  have hle : h.length + 1 - m ≤ h.length := by omega
  rw [List.drop_append_of_le_length hle, List.getLast?_concat]

lemma lastN_length_le {α : Type} (n : Nat) (l : List α) :
    (lastN n l).length ≤ n := by
  simp only [lastN, List.length_drop]
  omega

lemma pushWindow_lastN {α : Type} (m : Nat) (l : List α) (v : α) :
    pushWindow m (lastN m l) v = lastN m (l ++ [v]) := by
  have h1 : l.length - m ≤ l.length := Nat.sub_le _ _
  rw [pushWindow_eq_drop]
  unfold lastN
  rw [← List.drop_append_of_le_length h1, List.drop_drop]
  congr 1
  simp only [List.length_drop, List.length_append, List.length_singleton]
  omega

/-! The per-field debounce body equals the specification-level description on
a freshly appended window. -/

lemma debounceField_pushWindow {α : Type} [DecidableEq α] (cap : Nat)
    (hcap : 1 ≤ cap) (fieldName : String) (valueStr : α → String)
    (h : List α) (v : α) (confirmed : α) :
    debounceField cap fieldName valueStr (pushWindow cap h v) confirmed =
      some (fieldChange cap (pushWindow cap h v) confirmed v fieldName
        valueStr) := by
  have hlast := getLast?_pushWindow cap hcap h v
  have hallp : (((pushWindow cap h v).all fun x => decide (x = v)) = true) ↔
      ∀ x ∈ pushWindow cap h v, x = v := by
    rw [List.all_eq_true]
    simp
  unfold debounceField fieldChange
  simp only [hlast]
  split_ifs with h1 h2 h3 h4 h5 h6 h7
  · exact absurd h2.1 (by omega)
  · rfl
  · rfl
  · exact absurd ⟨by omega, hallp.mp h3, h4⟩ h5
  · exact absurd h6.2.2 (by simpa using h4)
  · rfl
  · exact absurd (hallp.mpr h7.2.1) h3
  · rfl

/-- With a positive window capacity the whole debounce branch succeeds and is
described field by field by fieldChange on the freshly appended windows. -/
lemma debounceUpdate_eq (s : StateManager) (raw : DetectionResult)
    (hN : 1 ≤ s.debounce_frames) :
    debounceUpdate s raw =
      some ((fieldChange s.debounce_frames
          (pushWindow s.debounce_frames s.hist_proximity raw.proximity)
          s.confirmed.proximity raw.proximity "proximity"
          Proximity.value).2 ++
        (fieldChange s.debounce_frames
          (pushWindow s.debounce_frames s.hist_expression raw.expression)
          s.confirmed.expression raw.expression "expression"
          Expression.value).2 ++
        (fieldChange s.debounce_frames
          (pushWindow s.debounce_frames s.hist_gesture raw.gesture)
          s.confirmed.gesture raw.gesture "gesture" Gesture.value).2,
        { s with
          hist_proximity :=
            pushWindow s.debounce_frames s.hist_proximity raw.proximity
          hist_expression :=
            pushWindow s.debounce_frames s.hist_expression raw.expression
          hist_gesture :=
            pushWindow s.debounce_frames s.hist_gesture raw.gesture
          confirmed := { s.confirmed with
            proximity := (fieldChange s.debounce_frames
              (pushWindow s.debounce_frames s.hist_proximity raw.proximity)
              s.confirmed.proximity raw.proximity "proximity"
              Proximity.value).1
            expression := (fieldChange s.debounce_frames
              (pushWindow s.debounce_frames s.hist_expression raw.expression)
              s.confirmed.expression raw.expression "expression"
              Expression.value).1
            gesture := (fieldChange s.debounce_frames
              (pushWindow s.debounce_frames s.hist_gesture raw.gesture)
              s.confirmed.gesture raw.gesture "gesture"
              Gesture.value).1 } }) := by
  unfold debounceUpdate
  dsimp only
  rw [debounceField_pushWindow s.debounce_frames hN "proximity"
      Proximity.value s.hist_proximity raw.proximity s.confirmed.proximity,
    debounceField_pushWindow s.debounce_frames hN "expression"
      Expression.value s.hist_expression raw.expression
      s.confirmed.expression,
    debounceField_pushWindow s.debounce_frames hN "gesture"
      Gesture.value s.hist_gesture raw.gesture s.confirmed.gesture]

/-! Projection lemmas for the idle-tracking step and the update branches. -/

lemma trackFace_hist_proximity (s : StateManager) (raw : DetectionResult)
    (now : ℚ) : (trackFace s raw now).hist_proximity = s.hist_proximity := by
  unfold trackFace
  split <;> rfl

lemma trackFace_hist_expression (s : StateManager) (raw : DetectionResult)
    (now : ℚ) : (trackFace s raw now).hist_expression = s.hist_expression := by
  unfold trackFace
  split <;> rfl

lemma trackFace_hist_gesture (s : StateManager) (raw : DetectionResult)
    (now : ℚ) : (trackFace s raw now).hist_gesture = s.hist_gesture := by
  unfold trackFace
  split <;> rfl

lemma trackFace_confirmed (s : StateManager) (raw : DetectionResult)
    (now : ℚ) : (trackFace s raw now).confirmed = s.confirmed := by
  unfold trackFace
  split <;> rfl

lemma trackFace_debounce_frames (s : StateManager) (raw : DetectionResult)
    (now : ℚ) : (trackFace s raw now).debounce_frames = s.debounce_frames := by
  unfold trackFace
  split <;> rfl

lemma trackFace_timeout (s : StateManager) (raw : DetectionResult)
    (now : ℚ) :
    (trackFace s raw now).idle_timeout_seconds = s.idle_timeout_seconds := by
  unfold trackFace
  split <;> rfl

lemma trackFace_idle_false (s : StateManager) (raw : DetectionResult)
    (now : ℚ) (h : s.idle = false) : (trackFace s raw now).idle = false := by
  unfold trackFace
  split <;> simp [h]

lemma trackFace_last_eq (s : StateManager) (raw : DetectionResult)
    (now : ℚ) (h : s.last_face_seen_at = now) :
    (trackFace s raw now).last_face_seen_at = now := by
  unfold trackFace
  split <;> simp [h]

lemma trackFace_of_none (s : StateManager) (raw : DetectionResult) (now : ℚ)
    (h : raw.proximity = Proximity.none) : trackFace s raw now = s := by
  simp [trackFace, h]

lemma trackFace_of_present (s : StateManager) (raw : DetectionResult)
    (now : ℚ) (h : raw.proximity ≠ Proximity.none) :
    trackFace s raw now = { s with last_face_seen_at := now, idle := false } := by
  simp [trackFace, h]

/-- When the idle flag is clear after the tracking step and the elapsed time
is below the timeout, update takes the normal debounce branch. -/
lemma update_active (s : StateManager) (raw : DetectionResult) (now : ℚ)
    (h1 : (trackFace s raw now).idle = false)
    (hto : now - (trackFace s raw now).last_face_seen_at <
      s.idle_timeout_seconds) :
    s.update raw now = debounceUpdate (trackFace s raw now) raw := by
  have h2 := trackFace_timeout s raw now
  unfold StateManager.update
  dsimp only
  split_ifs with hA hB
  · rw [h2] at hA
    exact absurd hA.2 (not_le.mpr hto)
  · rw [h1] at hB
    simp at hB
  · rfl

/-- The debounce branch never touches the idle timer, the idle flag, or the
configuration fields. -/
lemma debounceUpdate_fields {s : StateManager} {raw : DetectionResult}
    {ch : List (String × String)} {s2 : StateManager}
    (h : debounceUpdate s raw = some (ch, s2)) :
    s2.idle = s.idle ∧ s2.last_face_seen_at = s.last_face_seen_at ∧
    s2.debounce_frames = s.debounce_frames ∧
    s2.idle_timeout_seconds = s.idle_timeout_seconds ∧
    s2.hist_proximity =
      pushWindow s.debounce_frames s.hist_proximity raw.proximity ∧
    s2.hist_expression =
      pushWindow s.debounce_frames s.hist_expression raw.expression ∧
    s2.hist_gesture =
      pushWindow s.debounce_frames s.hist_gesture raw.gesture := by
  unfold debounceUpdate at h
  dsimp only at h
  split at h
  · exact absurd h (by simp)
  · split at h
    · exact absurd h (by simp)
    · split at h
      · exact absurd h (by simp)
      · rw [Option.some_inj, Prod.mk.injEq] at h
        obtain ⟨-, h2⟩ := h
        subst h2
        exact ⟨rfl, rfl, rfl, rfl, rfl, rfl, rfl⟩

/-- C1: on an update call made while ACTIVE (idle flag clear) that does not
time out, every debounced field's raw value is appended to that field's
rolling window; a field whose window still has fewer than debounce_frames
entries is skipped; otherwise the confirmed value is set to the just-appended
candidate and the pair recorded exactly when every entry of the full window
equals the candidate and the candidate differs from the current confirmed
value; the returned list is the recorded changes in the fixed field order
proximity, expression, gesture.  The positive window capacity is the spec's
documented configuration assumption. -/
theorem C1_active_update_debounces (s : StateManager) (raw : DetectionResult)
    (now : ℚ) (hN : 1 ≤ s.debounce_frames) (hidle : s.idle = false)
    (hto : now - (trackFace s raw now).last_face_seen_at <
      s.idle_timeout_seconds) :
    s.update raw now =
      some ((fieldChange s.debounce_frames
          (pushWindow s.debounce_frames s.hist_proximity raw.proximity)
          s.confirmed.proximity raw.proximity "proximity"
          Proximity.value).2 ++
        (fieldChange s.debounce_frames
          (pushWindow s.debounce_frames s.hist_expression raw.expression)
          s.confirmed.expression raw.expression "expression"
          Expression.value).2 ++
        (fieldChange s.debounce_frames
          (pushWindow s.debounce_frames s.hist_gesture raw.gesture)
          s.confirmed.gesture raw.gesture "gesture" Gesture.value).2,
        { trackFace s raw now with
          hist_proximity :=
            pushWindow s.debounce_frames s.hist_proximity raw.proximity
          hist_expression :=
            pushWindow s.debounce_frames s.hist_expression raw.expression
          hist_gesture :=
            pushWindow s.debounce_frames s.hist_gesture raw.gesture
          confirmed := { s.confirmed with
            proximity := (fieldChange s.debounce_frames
              (pushWindow s.debounce_frames s.hist_proximity raw.proximity)
              s.confirmed.proximity raw.proximity "proximity"
              Proximity.value).1
            expression := (fieldChange s.debounce_frames
              (pushWindow s.debounce_frames s.hist_expression raw.expression)
              s.confirmed.expression raw.expression "expression"
              Expression.value).1
            gesture := (fieldChange s.debounce_frames
              (pushWindow s.debounce_frames s.hist_gesture raw.gesture)
              s.confirmed.gesture raw.gesture "gesture"
              Gesture.value).1 } }) := by
  rw [update_active s raw now (trackFace_idle_false s raw now hidle) hto,
    debounceUpdate_eq (trackFace s raw now) raw
      (by rw [trackFace_debounce_frames]; exact hN)]
  simp only [trackFace_hist_proximity, trackFace_hist_expression,
    trackFace_hist_gesture, trackFace_confirmed, trackFace_debounce_frames]

/-- A concrete raw frame result with a close face and nothing else. -/
def rawClose : DetectionResult := { proximity := Proximity.close }

/-- A concrete raw frame result with no face at all. -/
def rawAway : DetectionResult := {}

/-- Witness for C1 at a concrete fresh manager of capacity one. -/
theorem C1_witness :
    1 ≤ (StateManager.init 1 5 0).debounce_frames ∧
    (StateManager.init 1 5 0).idle = false ∧
    (0 : ℚ) -
        (trackFace (StateManager.init 1 5 0) rawClose 0).last_face_seen_at <
      (StateManager.init 1 5 0).idle_timeout_seconds ∧
    (StateManager.init 1 5 0).update rawClose 0 =
      some ((fieldChange (StateManager.init 1 5 0).debounce_frames
          (pushWindow (StateManager.init 1 5 0).debounce_frames
            (StateManager.init 1 5 0).hist_proximity rawClose.proximity)
          (StateManager.init 1 5 0).confirmed.proximity rawClose.proximity
          "proximity" Proximity.value).2 ++
        (fieldChange (StateManager.init 1 5 0).debounce_frames
          (pushWindow (StateManager.init 1 5 0).debounce_frames
            (StateManager.init 1 5 0).hist_expression rawClose.expression)
          (StateManager.init 1 5 0).confirmed.expression rawClose.expression
          "expression" Expression.value).2 ++
        (fieldChange (StateManager.init 1 5 0).debounce_frames
          (pushWindow (StateManager.init 1 5 0).debounce_frames
            (StateManager.init 1 5 0).hist_gesture rawClose.gesture)
          (StateManager.init 1 5 0).confirmed.gesture rawClose.gesture
          "gesture" Gesture.value).2,
        { trackFace (StateManager.init 1 5 0) rawClose 0 with
          hist_proximity :=
            pushWindow (StateManager.init 1 5 0).debounce_frames
              (StateManager.init 1 5 0).hist_proximity rawClose.proximity
          hist_expression :=
            pushWindow (StateManager.init 1 5 0).debounce_frames
              (StateManager.init 1 5 0).hist_expression rawClose.expression
          hist_gesture :=
            pushWindow (StateManager.init 1 5 0).debounce_frames
              (StateManager.init 1 5 0).hist_gesture rawClose.gesture
          confirmed := { (StateManager.init 1 5 0).confirmed with
            proximity := (fieldChange (StateManager.init 1 5 0).debounce_frames
              (pushWindow (StateManager.init 1 5 0).debounce_frames
                (StateManager.init 1 5 0).hist_proximity rawClose.proximity)
              (StateManager.init 1 5 0).confirmed.proximity rawClose.proximity
              "proximity" Proximity.value).1
            expression := (fieldChange
              (StateManager.init 1 5 0).debounce_frames
              (pushWindow (StateManager.init 1 5 0).debounce_frames
                (StateManager.init 1 5 0).hist_expression rawClose.expression)
              (StateManager.init 1 5 0).confirmed.expression
              rawClose.expression "expression" Expression.value).1
            gesture := (fieldChange (StateManager.init 1 5 0).debounce_frames
              (pushWindow (StateManager.init 1 5 0).debounce_frames
                (StateManager.init 1 5 0).hist_gesture rawClose.gesture)
              (StateManager.init 1 5 0).confirmed.gesture rawClose.gesture
              "gesture" Gesture.value).1 } }) :=
  ⟨by decide, by decide,
    by simp [trackFace, rawClose, StateManager.init],
    C1_active_update_debounces (StateManager.init 1 5 0) rawClose 0
      (by decide) (by decide)
      (by simp [trackFace, rawClose, StateManager.init])⟩

/-- C3: an update call made while not idle, with no face in the raw result
and the elapsed time at or past the timeout, transitions to IDLE, returns
exactly one (field, NONE) entry for each debounced field whose confirmed
value was not already NONE (in the fixed field order), leaves every confirmed
debounced field NONE, and leaves all three windows empty, the raw values not
having been appended. -/
theorem C3_idle_timeout_reset (s : StateManager) (raw : DetectionResult)
    (now : ℚ) (hidle : s.idle = false)
    (hprox : raw.proximity = Proximity.none)
    (hto : s.idle_timeout_seconds ≤ now - s.last_face_seen_at) :
    ∃ s2,
      s.update raw now =
        some ((if s.confirmed.proximity ≠ Proximity.none then
            [("proximity", "none")] else []) ++
          (if s.confirmed.expression ≠ Expression.none then
            [("expression", "none")] else []) ++
          (if s.confirmed.gesture ≠ Gesture.none then
            [("gesture", "none")] else []), s2) ∧
      s2.idle = true ∧
      s2.confirmed.proximity = Proximity.none ∧
      s2.confirmed.expression = Expression.none ∧
      s2.confirmed.gesture = Gesture.none ∧
      s2.hist_proximity = [] ∧ s2.hist_expression = [] ∧
      s2.hist_gesture = [] := by
  have hupd : s.update raw now =
      some (reset_to_idle { s with idle := true }) := by
    unfold StateManager.update
    dsimp only
    rw [trackFace_of_none s raw now hprox]
    rw [if_pos ⟨hidle, hto⟩]
  rw [hupd]
  exact ⟨_, rfl, rfl, rfl, rfl, rfl, rfl, rfl, rfl⟩

/-- A concrete manager with confirmed presence and smile, a one-second idle
timeout, and its idle timer at zero. -/
def sC3 : StateManager :=
  { StateManager.init 3 1 0 with
    confirmed := { proximity := Proximity.close
                   expression := Expression.smile } }

/-- Witness for C3 at a concrete timed-out manager. -/
theorem C3_witness :
    sC3.idle = false ∧ rawAway.proximity = Proximity.none ∧
    sC3.idle_timeout_seconds ≤ 1 - sC3.last_face_seen_at ∧
    (∃ s2,
      sC3.update rawAway 1 =
        some ((if sC3.confirmed.proximity ≠ Proximity.none then
            [("proximity", "none")] else []) ++
          (if sC3.confirmed.expression ≠ Expression.none then
            [("expression", "none")] else []) ++
          (if sC3.confirmed.gesture ≠ Gesture.none then
            [("gesture", "none")] else []), s2) ∧
      s2.idle = true ∧
      s2.confirmed.proximity = Proximity.none ∧
      s2.confirmed.expression = Expression.none ∧
      s2.confirmed.gesture = Gesture.none ∧
      s2.hist_proximity = [] ∧ s2.hist_expression = [] ∧
      s2.hist_gesture = []) :=
  ⟨by decide, by decide, by simp [sC3, StateManager.init],
    C3_idle_timeout_reset sC3 rawAway 1 (by decide) (by decide)
      (by simp [sC3, StateManager.init])⟩

/-- C8: an update call made while IDLE whose raw proximity is NONE returns
the empty change list and returns the state object unchanged: confirmed
state, all three windows, the idle flag and the idle timestamp are all as
before. -/
theorem C8_idle_is_frozen (s : StateManager) (raw : DetectionResult)
    (now : ℚ) (hidle : s.idle = true)
    (hprox : raw.proximity = Proximity.none) :
    s.update raw now = some ([], s) := by
  unfold StateManager.update
  dsimp only
  rw [trackFace_of_none s raw now hprox]
  split_ifs with hA
  · rw [hidle] at hA
    simp at hA
  · rfl

/-- A concrete idle manager. -/
def sC8 : StateManager := { StateManager.init 1 1 0 with idle := true }

/-- Witness for C8 at a concrete idle manager. -/
theorem C8_witness :
    sC8.idle = true ∧ rawAway.proximity = Proximity.none ∧
    sC8.update rawAway 0 = some ([], sC8) :=
  ⟨by decide, by decide,
    C8_idle_is_frozen sC8 rawAway 0 (by decide) (by decide)⟩

/-- C9: an update call whose raw proximity is not NONE stamps the idle timer
with the current time and clears the idle flag before anything else, whatever
the starting state, and then runs the normal debounce branch; with the
spec-mandated positive timeout such a call can never end idle, and any state
it returns carries the cleared flag and the fresh timestamp. -/
theorem C9_presence_clears_idle (s : StateManager) (raw : DetectionResult)
    (now : ℚ) (hprox : raw.proximity ≠ Proximity.none)
    (hpos : 0 < s.idle_timeout_seconds) :
    s.update raw now =
      debounceUpdate { s with last_face_seen_at := now, idle := false }
        raw ∧
    ∀ ch s2, s.update raw now = some (ch, s2) →
      s2.idle = false ∧ s2.last_face_seen_at = now := by
  have htf := trackFace_of_present s raw now hprox
  have h1 : s.update raw now =
      debounceUpdate { s with last_face_seen_at := now, idle := false }
        raw := by
    rw [← htf]
    exact update_active s raw now (by rw [htf]) (by rw [htf]; simpa using hpos)
  refine ⟨h1, ?_⟩
  intro ch s2 hupd
  rw [h1] at hupd
  obtain ⟨hi, hl, -, -⟩ := debounceUpdate_fields hupd
  exact ⟨hi, hl⟩

/-- Witness for C9: a presence frame fed to a fresh manager at a later time. -/
theorem C9_witness :
    rawClose.proximity ≠ Proximity.none ∧
    0 < (StateManager.init 2 1 0).idle_timeout_seconds ∧
    ((StateManager.init 2 1 0).update rawClose 7 =
      debounceUpdate { StateManager.init 2 1 0 with
        last_face_seen_at := 7, idle := false } rawClose ∧
    ∀ ch s2, (StateManager.init 2 1 0).update rawClose 7 = some (ch, s2) →
      s2.idle = false ∧ s2.last_face_seen_at = 7) :=
  ⟨by decide, by simp [StateManager.init],
    C9_presence_clears_idle (StateManager.init 2 1 0) rawClose 7
      (by decide) (by simp [StateManager.init])⟩

/-- C10: the three rolling windows start empty; an update call only ever
leaves a window unchanged, clears it, or pushes the raw value through the
fixed-capacity FIFO append, so a window within capacity stays within
capacity; and the FIFO append keeps a suffix of the appended sequence
(oldest first, most recent values) of length capped at the capacity,
silently discarding the oldest entries. -/
theorem C10_window_invariant :
    (∀ (cap : Nat) (timeout t0 : ℚ),
      (StateManager.init cap timeout t0).hist_proximity = [] ∧
      (StateManager.init cap timeout t0).hist_expression = [] ∧
      (StateManager.init cap timeout t0).hist_gesture = []) ∧
    (∀ (s : StateManager) (raw : DetectionResult) (now : ℚ)
        (ch : List (String × String)) (s2 : StateManager),
      s.update raw now = some (ch, s2) →
      ((s.hist_proximity.length ≤ s.debounce_frames →
          s2.hist_proximity.length ≤ s.debounce_frames) ∧
        (s2.hist_proximity = s.hist_proximity ∨ s2.hist_proximity = [] ∨
          s2.hist_proximity =
            pushWindow s.debounce_frames s.hist_proximity raw.proximity)) ∧
      ((s.hist_expression.length ≤ s.debounce_frames →
          s2.hist_expression.length ≤ s.debounce_frames) ∧
        (s2.hist_expression = s.hist_expression ∨ s2.hist_expression = [] ∨
          s2.hist_expression =
            pushWindow s.debounce_frames s.hist_expression raw.expression)) ∧
      ((s.hist_gesture.length ≤ s.debounce_frames →
          s2.hist_gesture.length ≤ s.debounce_frames) ∧
        (s2.hist_gesture = s.hist_gesture ∨ s2.hist_gesture = [] ∨
          s2.hist_gesture =
            pushWindow s.debounce_frames s.hist_gesture raw.gesture))) ∧
    (∀ (α : Type) (m : Nat) (h : List α) (v : α),
      pushWindow m h v <:+ h ++ [v] ∧
      (pushWindow m h v).length = min (h.length + 1) m ∧
      pushWindow m h v = (h ++ [v]).drop (h.length + 1 - m)) := by
  refine ⟨fun cap timeout t0 => ⟨rfl, rfl, rfl⟩, ?_, fun α m h v =>
    ⟨pushWindow_suffix m h v, length_pushWindow m h v,
      pushWindow_eq_drop m h v⟩⟩
  intro s raw now ch s2 hupd
  unfold StateManager.update at hupd
  dsimp only at hupd
  split_ifs at hupd
  · unfold reset_to_idle at hupd
    dsimp only at hupd
    rw [Option.some_inj, Prod.mk.injEq] at hupd
    obtain ⟨-, h2⟩ := hupd
    subst h2
    refine ⟨⟨fun _ => ?_, Or.inr (Or.inl rfl)⟩,
      ⟨fun _ => ?_, Or.inr (Or.inl rfl)⟩,
      ⟨fun _ => ?_, Or.inr (Or.inl rfl)⟩⟩ <;> simp
  · rw [Option.some_inj, Prod.mk.injEq] at hupd
    obtain ⟨-, h2⟩ := hupd
    subst h2
    rw [trackFace_hist_proximity, trackFace_hist_expression,
      trackFace_hist_gesture]
    exact ⟨⟨fun hle => hle, Or.inl rfl⟩, ⟨fun hle => hle, Or.inl rfl⟩,
      ⟨fun hle => hle, Or.inl rfl⟩⟩
  · obtain ⟨-, -, -, -, hp, he, hg⟩ := debounceUpdate_fields hupd
    simp only [trackFace_hist_proximity, trackFace_hist_expression,
      trackFace_hist_gesture, trackFace_debounce_frames] at hp he hg
    refine ⟨⟨fun _ => ?_, Or.inr (Or.inr hp)⟩,
      ⟨fun _ => ?_, Or.inr (Or.inr he)⟩,
      ⟨fun _ => ?_, Or.inr (Or.inr hg)⟩⟩
    · rw [hp, length_pushWindow]
      exact Nat.min_le_right _ _
    · rw [he, length_pushWindow]
      exact Nat.min_le_right _ _
    · rw [hg, length_pushWindow]
      exact Nat.min_le_right _ _

/-! Trace lemmas for sequences of update calls. -/

lemma runTrace_append (s : StateManager) (l₁ l₂ : List DetectionResult)
    (now : ℚ) :
    runTrace s (l₁ ++ l₂) now =
      (match runTrace s l₁ now with
      | Option.none => Option.none
      | some (chs, s1) =>
        match runTrace s1 l₂ now with
        | Option.none => Option.none
        | some (chs2, s2) => some (chs ++ chs2, s2)) := by
  induction l₁ generalizing s with
  | nil =>
    simp only [List.nil_append, runTrace]
    cases h : runTrace s l₂ now with
    | none => rfl
    | some q => rfl
  | cons r rest ih =>
    simp only [List.cons_append, runTrace, List.append_eq]
    cases hu : s.update r now with
    | none => rfl
    | some p =>
      obtain ⟨ch, s1⟩ := p
      dsimp only
      rw [ih s1]
      cases h1 : runTrace s1 rest now with
      | none => rfl
      | some q =>
        obtain ⟨chs, s2⟩ := q
        dsimp only
        cases h2 : runTrace s2 l₂ now with
        | none => rfl
        | some w =>
          obtain ⟨chs2, s3⟩ := w
          simp

/-- The invariant carried along a trace of calls that all stay ACTIVE: the
configuration is fixed, the idle flag clear, and the idle timer equal to the
constant clock reading. -/
def ActiveInv (N : Nat) (timeout t : ℚ) (s : StateManager) : Prop :=
  s.debounce_frames = N ∧ s.idle_timeout_seconds = timeout ∧
  s.idle = false ∧ s.last_face_seen_at = t

lemma update_step_active (N : Nat) (timeout t : ℚ) (hN : 1 ≤ N)
    (hto : 0 < timeout) (s : StateManager) (hs : ActiveInv N timeout t s)
    (r : DetectionResult) :
    ∃ ch s2, s.update r t = some (ch, s2) ∧ ActiveInv N timeout t s2 ∧
      s2.hist_proximity = pushWindow N s.hist_proximity r.proximity ∧
      s2.hist_expression = pushWindow N s.hist_expression r.expression ∧
      s2.hist_gesture = pushWindow N s.hist_gesture r.gesture ∧
      s2.confirmed.proximity = (fieldChange N
        (pushWindow N s.hist_proximity r.proximity) s.confirmed.proximity
        r.proximity "proximity" Proximity.value).1 ∧
      s2.confirmed.expression = (fieldChange N
        (pushWindow N s.hist_expression r.expression) s.confirmed.expression
        r.expression "expression" Expression.value).1 ∧
      s2.confirmed.gesture = (fieldChange N
        (pushWindow N s.hist_gesture r.gesture) s.confirmed.gesture
        r.gesture "gesture" Gesture.value).1 ∧
      ch = (fieldChange N (pushWindow N s.hist_proximity r.proximity)
          s.confirmed.proximity r.proximity "proximity" Proximity.value).2 ++
        (fieldChange N (pushWindow N s.hist_expression r.expression)
          s.confirmed.expression r.expression "expression"
          Expression.value).2 ++
        (fieldChange N (pushWindow N s.hist_gesture r.gesture)
          s.confirmed.gesture r.gesture "gesture" Gesture.value).2 := by
  obtain ⟨hN', hT', hI', hL'⟩ := hs
  have h1 : (trackFace s r t).idle = false := trackFace_idle_false s r t hI'
  have h2 : t - (trackFace s r t).last_face_seen_at <
      s.idle_timeout_seconds := by
    rw [trackFace_last_eq s r t hL', hT']
    simpa using hto
  have hu := update_active s r t h1 h2
  have hd := debounceUpdate_eq (trackFace s r t) r
    (by rw [trackFace_debounce_frames, hN']; exact hN)
  rw [hu, hd]
  simp only [trackFace_hist_proximity, trackFace_hist_expression,
    trackFace_hist_gesture, trackFace_confirmed, trackFace_debounce_frames,
    hN']
  refine ⟨_, _, rfl, ⟨?_, ?_, ?_, ?_⟩, rfl, rfl, rfl, rfl, rfl, rfl, rfl⟩
  · simp [trackFace_debounce_frames, hN']
  · simp [trackFace_timeout, hT']
  · exact h1
  · exact trackFace_last_eq s r t hL'

/-- From any state satisfying the active invariant, a trace of calls at the
constant clock reading succeeds, stays active, and produces one change list
per call. -/
lemma runTrace_exists (N : Nat) (timeout t : ℚ) (hN : 1 ≤ N)
    (hto : 0 < timeout) (raws : List DetectionResult) :
    ∀ s, ActiveInv N timeout t s →
    ∃ outs sf, runTrace s raws t = some (outs, sf) ∧
      outs.length = raws.length ∧ ActiveInv N timeout t sf := by
  induction raws with
  | nil => exact fun s hs => ⟨[], s, rfl, rfl, hs⟩
  | cons r rest ih =>
    intro s hs
    obtain ⟨ch, s2, hu, hinv2, -⟩ := update_step_active N timeout t hN hto s hs r
    obtain ⟨outs, sf, hrun, hlen, hinvf⟩ := ih s2 hinv2
    refine ⟨ch :: outs, sf, ?_, by simp [hlen], hinvf⟩
    simp only [runTrace, hu, hrun]

/-- Starting from a freshly initialised manager, a trace of calls at the
initial clock reading succeeds, stays active, and leaves each field's window
holding the last debounce_frames raw observations of that field. -/
lemma runTrace_from_init (N : Nat) (timeout t : ℚ) (hN : 1 ≤ N)
    (hto : 0 < timeout) (raws : List DetectionResult) :
    ∃ outs sf,
      runTrace (StateManager.init N timeout t) raws t = some (outs, sf) ∧
      outs.length = raws.length ∧ ActiveInv N timeout t sf ∧
      sf.hist_proximity = lastN N (raws.map (fun r => r.proximity)) ∧
      sf.hist_expression = lastN N (raws.map (fun r => r.expression)) ∧
      sf.hist_gesture = lastN N (raws.map (fun r => r.gesture)) := by
  induction raws using List.reverseRecOn with
  | nil =>
    refine ⟨[], StateManager.init N timeout t, rfl, rfl,
      ⟨rfl, rfl, rfl, rfl⟩, ?_, ?_, ?_⟩ <;> simp [lastN, StateManager.init]
  | append_singleton raws r ih =>
    obtain ⟨outs, sf, hrun, hlen, hinv, hp, he, hg⟩ := ih
    obtain ⟨ch, s2, hu, hinv2, hp2, he2, hg2, -⟩ :=
      update_step_active N timeout t hN hto sf hinv r
    refine ⟨outs ++ [ch], s2, ?_, by simp [hlen], hinv2, ?_, ?_, ?_⟩
    · rw [runTrace_append, hrun]
      dsimp only
      simp only [runTrace, hu]
    · rw [hp2, hp, pushWindow_lastN, List.map_append]
      rfl
    · rw [he2, he, pushWindow_lastN, List.map_append]
      rfl
    · rw [hg2, hg, pushWindow_lastN, List.map_append]
      rfl

/-! Lemmas about membership in the emitted change lists. -/

lemma mem_fieldChange {α : Type} [DecidableEq α] (cap : Nat) (w : List α)
    (conf cand : α) (name : String) (vs : α → String) (x : String × String) :
    x ∈ (fieldChange cap w conf cand name vs).2 ↔
      (cap ≤ w.length ∧ (∀ y ∈ w, y = cand) ∧ cand ≠ conf) ∧
        x = (name, vs cand) := by
  unfold fieldChange
  split_ifs with h
  · simp only [List.mem_singleton]
    exact ⟨fun hx => ⟨h, hx⟩, fun hx => hx.2⟩
  · constructor
    · intro hx
      exact absurd hx (List.not_mem_nil x)
    · rintro ⟨hc, -⟩
      exact absurd hc h

lemma not_mem_fieldChange_of_name {α : Type} [DecidableEq α] (cap : Nat)
    (w : List α) (conf cand : α) (name name2 : String) (vs : α → String)
    (v : String) (hne : name ≠ name2) :
    (name, v) ∉ (fieldChange cap w conf cand name2 vs).2 := by
  rw [mem_fieldChange]
  rintro ⟨-, heq⟩
  exact hne (congrArg Prod.fst heq)

lemma value_injective_proximity : Function.Injective Proximity.value := by
  intro a b hab
  cases a <;> cases b <;> first
    | rfl
    | exact absurd hab (by decide)

lemma value_injective_expression : Function.Injective Expression.value := by
  intro a b hab
  cases a <;> cases b <;> first
    | rfl
    | exact absurd hab (by decide)

lemma value_injective_gesture : Function.Injective Gesture.value := by
  intro a b hab
  cases a <;> cases b <;> first
    | rfl
    | exact absurd hab (by decide)

/-- On a window with a known last element and length within capacity, the
confirmation condition together with naming the candidate is the same as the
window being a full run of the named value that differs from the confirmed
value. -/
lemma unanimous_iff_replicate {α : Type} [DecidableEq α] (cap : Nat)
    (hcap : 1 ≤ cap) (w : List α) (cand conf V : α)
    (hlast : w.getLast? = some cand) (hlen : w.length ≤ cap) :
    ((cap ≤ w.length ∧ (∀ x ∈ w, x = cand) ∧ cand ≠ conf) ∧ V = cand) ↔
      (w = List.replicate cap V ∧ conf ≠ V) := by
  constructor
  · rintro ⟨⟨h1, h2, h3⟩, rfl⟩
    exact ⟨List.eq_replicate_iff.mpr ⟨le_antisymm hlen h1, h2⟩,
      fun hc => h3 hc.symm⟩
  · rintro ⟨rfl, hne⟩
    rw [List.getLast?_replicate] at hlast
    rw [if_neg (by omega)] at hlast
    obtain rfl : V = cand := Option.some_inj.mp hlast
    refine ⟨⟨?_, fun x hx => List.eq_of_mem_replicate hx,
      fun h => hne h.symm⟩, rfl⟩
    rw [List.length_replicate]

/-- Membership of a named change in a single field's emission, phrased with
the window as a full run of the value. -/
lemma mem_fieldChange_iff_replicate {α : Type} [DecidableEq α] (cap : Nat)
    (hcap : 1 ≤ cap) (name : String) (vs : α → String)
    (hinj : Function.Injective vs) (h : List α) (cand conf : α) (V : α) :
    (name, vs V) ∈
        (fieldChange cap (pushWindow cap h cand) conf cand name vs).2 ↔
      (pushWindow cap h cand = List.replicate cap V ∧ conf ≠ V) := by
  rw [mem_fieldChange,
    ← unanimous_iff_replicate cap hcap (pushWindow cap h cand) cand conf V
      (getLast?_pushWindow cap hcap h cand)
      (by rw [length_pushWindow]; omega)]
  constructor
  · rintro ⟨hc, heq⟩
    exact ⟨hc, hinj (congrArg Prod.snd heq)⟩
  · rintro ⟨hc, rfl⟩
    exact ⟨hc, rfl⟩

/-- C2 (amended): with debounce_frames = N (positive, as the configuration
surface requires), a positive idle timeout, and the machine ACTIVE throughout
(a fresh manager with every call at the initial clock reading), a debounced
field's Confirmed State changes to value V on call k (zero-based entry k of
the per-call change lists) iff the raw observations at calls k-N+1 … k are
all exactly V and the field's Confirmed State just before call k differs
from V.  The original claim's side condition, that no unanimity held in the
window ending at call k-1, is replaced by the requirement on the prior
Confirmed State, which the counterexample forces. -/
theorem C2_amended_unanimous_confirmation (N : Nat) (timeout t : ℚ)
    (raws : List DetectionResult) (k : Nat) (hN : 1 ≤ N) (hto : 0 < timeout)
    (hk : k < raws.length) :
    ∃ outs sf outsk sk,
      runTrace (StateManager.init N timeout t) raws t = some (outs, sf) ∧
      runTrace (StateManager.init N timeout t) (raws.take k) t =
        some (outsk, sk) ∧
      (∀ V : Proximity,
        (("proximity", V.value) ∈ outs.getD k []) ↔
          (lastN N ((raws.take (k + 1)).map (fun r => r.proximity)) =
            List.replicate N V ∧ sk.confirmed.proximity ≠ V)) ∧
      (∀ V : Expression,
        (("expression", V.value) ∈ outs.getD k []) ↔
          (lastN N ((raws.take (k + 1)).map (fun r => r.expression)) =
            List.replicate N V ∧ sk.confirmed.expression ≠ V)) ∧
      (∀ V : Gesture,
        (("gesture", V.value) ∈ outs.getD k []) ↔
          (lastN N ((raws.take (k + 1)).map (fun r => r.gesture)) =
            List.replicate N V ∧ sk.confirmed.gesture ≠ V)) := by
  obtain ⟨outsk, sk, hrunk, hlenk, hinvk, hpk, hek, hgk⟩ :=
    runTrace_from_init N timeout t hN hto (raws.take k)
  obtain ⟨ch, s2, hu, hinv2, hp2, he2, hg2, hcp, hce, hcg, hch⟩ :=
    update_step_active N timeout t hN hto sk hinvk raws[k]
  obtain ⟨outs2, sf2, hrun2, hlen2, hinv3⟩ :=
    runTrace_exists N timeout t hN hto (raws.drop (k + 1)) s2 hinv2
  have hdecomp : raws.take k ++ (raws[k] :: raws.drop (k + 1)) = raws := by
    rw [← List.drop_eq_getElem_cons hk, List.take_append_drop]
  have hrunall : runTrace (StateManager.init N timeout t) raws t =
      some (outsk ++ (ch :: outs2), sf2) := by
    rw [← hdecomp, runTrace_append, hrunk]
    dsimp only
    simp only [runTrace, hu, hrun2]
  have hlk : outsk.length = k := by
    rw [hlenk, List.length_take]
    omega
  have houts : (outsk ++ (ch :: outs2)).getD k [] = ch := by
    rw [List.getD_eq_getElem?_getD,
      List.getElem?_append_right (by omega), hlk]
    simp
  have hwp : pushWindow N sk.hist_proximity (raws[k]).proximity =
      lastN N ((raws.take (k + 1)).map (fun r => r.proximity)) := by
    rw [hpk, pushWindow_lastN, List.take_succ,
      List.getElem?_eq_getElem hk, List.map_append]
    rfl
  have hwe : pushWindow N sk.hist_expression (raws[k]).expression =
      lastN N ((raws.take (k + 1)).map (fun r => r.expression)) := by
    rw [hek, pushWindow_lastN, List.take_succ,
      List.getElem?_eq_getElem hk, List.map_append]
    rfl
  have hwg : pushWindow N sk.hist_gesture (raws[k]).gesture =
      lastN N ((raws.take (k + 1)).map (fun r => r.gesture)) := by
    rw [hgk, pushWindow_lastN, List.take_succ,
      List.getElem?_eq_getElem hk, List.map_append]
    rfl
  refine ⟨outsk ++ (ch :: outs2), sf2, outsk, sk, hrunall, hrunk,
    ?_, ?_, ?_⟩
  · intro V
    have hmem : ("proximity", V.value) ∈ ch ↔
        (pushWindow N sk.hist_proximity (raws[k]).proximity =
          List.replicate N V ∧ sk.confirmed.proximity ≠ V) := by
      rw [hch, List.mem_append, List.mem_append,
        mem_fieldChange_iff_replicate N hN "proximity" Proximity.value
          value_injective_proximity sk.hist_proximity (raws[k]).proximity
          sk.confirmed.proximity V]
      constructor
      · rintro ((h | h) | h)
        · exact h
        · exact absurd h (not_mem_fieldChange_of_name N _ _ _ _ _ _ _
            (by decide))
        · exact absurd h (not_mem_fieldChange_of_name N _ _ _ _ _ _ _
            (by decide))
      · exact fun h => Or.inl (Or.inl h)
    rw [houts, hmem, hwp]
  · intro V
    have hmem : ("expression", V.value) ∈ ch ↔
        (pushWindow N sk.hist_expression (raws[k]).expression =
          List.replicate N V ∧ sk.confirmed.expression ≠ V) := by
      rw [hch, List.mem_append, List.mem_append,
        mem_fieldChange_iff_replicate N hN "expression" Expression.value
          value_injective_expression sk.hist_expression
          (raws[k]).expression sk.confirmed.expression V]
      constructor
      · rintro ((h | h) | h)
        · exact absurd h (not_mem_fieldChange_of_name N _ _ _ _ _ _ _
            (by decide))
        · exact h
        · exact absurd h (not_mem_fieldChange_of_name N _ _ _ _ _ _ _
            (by decide))
      · exact fun h => Or.inl (Or.inr h)
    rw [houts, hmem, hwe]
  · intro V
    have hmem : ("gesture", V.value) ∈ ch ↔
        (pushWindow N sk.hist_gesture (raws[k]).gesture =
          List.replicate N V ∧ sk.confirmed.gesture ≠ V) := by
      rw [hch, List.mem_append, List.mem_append,
        mem_fieldChange_iff_replicate N hN "gesture" Gesture.value
          value_injective_gesture sk.hist_gesture (raws[k]).gesture
          sk.confirmed.gesture V]
      constructor
      · rintro ((h | h) | h)
        · exact absurd h (not_mem_fieldChange_of_name N _ _ _ _ _ _ _
            (by decide))
        · exact absurd h (not_mem_fieldChange_of_name N _ _ _ _ _ _ _
            (by decide))
        · exact h
      · exact fun h => Or.inr h
    rw [houts, hmem, hwg]

/-- A concrete raw frame result with a medium-distance face. -/
def rawMedium : DetectionResult := { proximity := Proximity.medium }

/-- The raw proximity trace CLOSE, CLOSE, MEDIUM, CLOSE, CLOSE. -/
def cexRaws : List DetectionResult :=
  [rawClose, rawClose, rawMedium, rawClose, rawClose]

def cexS1 : StateManager :=
  { debounce_frames := 2
    idle_timeout_seconds := 1
    confirmed := {}
    hist_proximity := [Proximity.close]
    hist_expression := [Expression.none]
    hist_gesture := [Gesture.none]
    last_face_seen_at := 0
    idle := false }

def cexS2 : StateManager :=
  { cexS1 with
    hist_proximity := [Proximity.close, Proximity.close]
    hist_expression := [Expression.none, Expression.none]
    hist_gesture := [Gesture.none, Gesture.none]
    confirmed := { proximity := Proximity.close } }

def cexS3 : StateManager :=
  { cexS2 with hist_proximity := [Proximity.close, Proximity.medium] }

def cexS4 : StateManager :=
  { cexS2 with hist_proximity := [Proximity.medium, Proximity.close] }

def cexS5 : StateManager :=
  { cexS2 with hist_proximity := [Proximity.close, Proximity.close] }

/-- C2 counterexample: with N = 2 and the trace CLOSE, CLOSE, MEDIUM, CLOSE,
CLOSE on an always-active manager, at call 5 (index 4) the last two raw
observations are both CLOSE and the previous window MEDIUM, CLOSE was not
unanimous, yet the change list of that call is empty — the Confirmed State
was already CLOSE, so the claim's biconditional, which has no condition on
the prior Confirmed State, is false. -/
theorem C2_counterexample :
    (runTrace (StateManager.init 2 1 0) cexRaws 0).map Prod.fst =
      some [[], [("proximity", "close")], [], [], []] ∧
    cexRaws.map (fun r => r.proximity) =
      [Proximity.close, Proximity.close, Proximity.medium, Proximity.close,
        Proximity.close] ∧
    lastN 2 ((cexRaws.take 5).map (fun r => r.proximity)) =
      List.replicate 2 Proximity.close ∧
    lastN 2 ((cexRaws.take 4).map (fun r => r.proximity)) ≠
      List.replicate 2 Proximity.close ∧
    ("proximity", Proximity.close.value) ∉
      ([[], [("proximity", "close")], [], [], []].getD 4
        ([] : List (String × String))) := by
  have hstep : ∀ (s : StateManager) (r : DetectionResult),
      s.idle = false → s.last_face_seen_at = 0 →
      s.idle_timeout_seconds = 1 →
      s.update r 0 = debounceUpdate (trackFace s r 0) r := by
    intro s r h1 h2 h3
    refine update_active s r 0 (trackFace_idle_false s r 0 h1) ?_
    rw [trackFace_last_eq s r 0 h2, h3]
    simp
  have e1 : (StateManager.init 2 1 0).update rawClose 0 =
      some ([], cexS1) := by
    rw [hstep _ _ rfl rfl rfl]
    rfl
  have e2 : cexS1.update rawClose 0 =
      some ([("proximity", "close")], cexS2) := by
    rw [hstep _ _ rfl rfl rfl]
    rfl
  have e3 : cexS2.update rawMedium 0 = some ([], cexS3) := by
    rw [hstep _ _ rfl rfl rfl]
    rfl
  have e4 : cexS3.update rawClose 0 = some ([], cexS4) := by
    rw [hstep _ _ rfl rfl rfl]
    rfl
  have e5 : cexS4.update rawClose 0 = some ([], cexS5) := by
    rw [hstep _ _ rfl rfl rfl]
    rfl
  refine ⟨?_, by decide, by decide, by decide, by decide⟩
  simp only [cexRaws, runTrace, e1, e2, e3, e4, e5]
  rfl

/-! Lemmas about the dict merge. -/

/-- The value a left-to-right fold of dict updates leaves at a key: the value
from the latest output reporting it. -/
def lastWins {α : Type} (l : List (Option α)) : Option α :=
  l.reverse.findSome? id

lemma foldl_dictUpdate (raw_outputs : List Obs) (acc : Obs) (k : Key) :
    (raw_outputs.foldl dictUpdate acc) k =
      match lastWins (raw_outputs.map (fun o => o k)) with
      | some v => some v
      | Option.none => acc k := by
  induction raw_outputs generalizing acc with
  | nil => rfl
  | cons o rest ih =>
    simp only [List.map_cons, List.foldl_cons, lastWins, List.reverse_cons]
    rw [ih (dictUpdate acc o), List.findSome?_append]
    cases hr : lastWins (rest.map (fun o => o k)) with
    | some v =>
      unfold lastWins at hr
      rw [hr]
      rfl
    | none =>
      unfold lastWins at hr
      rw [hr]
      cases ho : o k with
      | some v => simp [dictUpdate, ho, List.findSome?, Option.or]
      | none => simp [dictUpdate, ho, List.findSome?, Option.or]

lemma mergeAll_apply (raw_outputs : List Obs) (k : Key) :
    mergeAll raw_outputs k = lastWins (raw_outputs.map (fun o => o k)) := by
  unfold mergeAll
  rw [foldl_dictUpdate]
  cases h : lastWins (raw_outputs.map (fun o => o k)) with
  | some v => rfl
  | none => rfl

lemma lastWins_eq_none {α : Type} (l : List (Option α))
    (h : ∀ x ∈ l, x = Option.none) : lastWins l = Option.none := by
  unfold lastWins
  induction l with
  | nil => rfl
  | cons x rest ih =>
    rw [List.reverse_cons, List.findSome?_append]
    rw [ih (fun y hy => h y (List.mem_cons_of_mem x hy))]
    have hx : x = Option.none := h x (List.mem_cons_self x rest)
    subst hx
    rfl

lemma mergeAll_eq_none (raw_outputs : List Obs) (k : Key)
    (h : ∀ o ∈ raw_outputs, o k = Option.none) :
    mergeAll raw_outputs k = Option.none := by
  rw [mergeAll_apply]
  apply lastWins_eq_none
  intro x hx
  obtain ⟨o, ho, rfl⟩ := List.mem_map.mp hx
  exact h o ho

/-- C7: the merge folds the ordered outputs left to right, so the value at
every key is the one reported by the latest backend reporting it; an output
without the key leaves the accumulator untouched; and the built frame result
reads these folded values. -/
theorem C7_merge_last_write_wins :
    (∀ (raw_outputs : List Obs) (k : Key),
      mergeAll raw_outputs k =
        lastWins (raw_outputs.map (fun o => o k))) ∧
    (∀ (acc out : Obs) (k : Key), out k = Option.none →
      dictUpdate acc out k = acc k) ∧
    (∀ raw_outputs : List Obs,
      (build_detection_result raw_outputs).expression =
        (lastWins (raw_outputs.map (fun o => o Key.expression))).getD
          Expression.none ∧
      (build_detection_result raw_outputs).face_x =
        lastWins (raw_outputs.map (fun o => o Key.face_x))) := by
  refine ⟨mergeAll_apply, ?_, ?_⟩
  · intro acc out k h
    simp [dictUpdate, h]
  · intro raw_outputs
    constructor
    · simp only [build_detection_result]
      rw [mergeAll_apply]
    · simp only [build_detection_result]
      rw [mergeAll_apply]

/-- Witness for C7: a key absent from the incoming dict leaves the
accumulated value in place. -/
theorem C7_witness :
    emptyObs Key.expression = Option.none ∧
    dictUpdate (exprObs Expression.smile) emptyObs Key.expression =
      exprObs Expression.smile Key.expression :=
  ⟨rfl, C7_merge_last_write_wins.2.1 (exprObs Expression.smile) emptyObs
    Key.expression rfl⟩

/-- C5 counterexample: merging an empty output list leaves the face_x
attribute unset, not filled with the absence sentinel -1.0, so the built
frame result does not let every continuous field be read. -/
theorem C5_counterexample :
    (build_detection_result []).face_x = Option.none ∧
    (build_detection_result []).face_x ≠ some (-1 : ℚ) := by
  refine ⟨rfl, ?_⟩
  intro h
  exact Option.noConfusion h

/-- C5 (amended): unreported discrete fields default to NONE and an
unreported proximity_value defaults to 0.0 in the built frame result, but
the face and hand coordinate fields are left absent when no backend reports
them — their -1.0 absence sentinels are produced by the face and hand
backends themselves, not by the merge. -/
theorem C5_amended_defaults (raw_outputs : List Obs) :
    ((∀ o ∈ raw_outputs, o Key.proximity = Option.none) →
      (build_detection_result raw_outputs).proximity = Proximity.none) ∧
    ((∀ o ∈ raw_outputs, o Key.expression = Option.none) →
      (build_detection_result raw_outputs).expression = Expression.none) ∧
    ((∀ o ∈ raw_outputs, o Key.gesture = Option.none) →
      (build_detection_result raw_outputs).gesture = Gesture.none) ∧
    ((∀ o ∈ raw_outputs, o Key.proximity_value = Option.none) →
      (build_detection_result raw_outputs).proximity_value = 0) ∧
    ((∀ o ∈ raw_outputs, o Key.face_x = Option.none) →
      (build_detection_result raw_outputs).face_x = Option.none) ∧
    ((∀ o ∈ raw_outputs, o Key.face_y = Option.none) →
      (build_detection_result raw_outputs).face_y = Option.none) ∧
    ((∀ o ∈ raw_outputs, o Key.hand_right_x = Option.none) →
      (build_detection_result raw_outputs).hand_right_x = Option.none) ∧
    ((∀ o ∈ raw_outputs, o Key.hand_right_y = Option.none) →
      (build_detection_result raw_outputs).hand_right_y = Option.none) ∧
    ((∀ o ∈ raw_outputs, o Key.hand_left_x = Option.none) →
      (build_detection_result raw_outputs).hand_left_x = Option.none) ∧
    ((∀ o ∈ raw_outputs, o Key.hand_left_y = Option.none) →
      (build_detection_result raw_outputs).hand_left_y = Option.none) := by
  refine ⟨fun h => ?_, fun h => ?_, fun h => ?_, fun h => ?_, fun h => ?_,
    fun h => ?_, fun h => ?_, fun h => ?_, fun h => ?_, fun h => ?_⟩ <;>
    simp only [build_detection_result] <;>
    rw [mergeAll_eq_none _ _ h] <;> rfl

/-- Witness for C5 (amended) at the empty output list. -/
theorem C5_amended_witness :
    (build_detection_result []).proximity = Proximity.none ∧
    (build_detection_result []).expression = Expression.none ∧
    (build_detection_result []).gesture = Gesture.none ∧
    (build_detection_result []).proximity_value = 0 ∧
    (build_detection_result []).face_x = Option.none ∧
    (build_detection_result []).face_y = Option.none ∧
    (build_detection_result []).hand_right_x = Option.none ∧
    (build_detection_result []).hand_right_y = Option.none ∧
    (build_detection_result []).hand_left_x = Option.none ∧
    (build_detection_result []).hand_left_y = Option.none :=
  ⟨(C5_amended_defaults []).1 (by simp),
    (C5_amended_defaults []).2.1 (by simp),
    (C5_amended_defaults []).2.2.1 (by simp),
    (C5_amended_defaults []).2.2.2.1 (by simp),
    (C5_amended_defaults []).2.2.2.2.1 (by simp),
    (C5_amended_defaults []).2.2.2.2.2.1 (by simp),
    (C5_amended_defaults []).2.2.2.2.2.2.1 (by simp),
    (C5_amended_defaults []).2.2.2.2.2.2.2.1 (by simp),
    (C5_amended_defaults []).2.2.2.2.2.2.2.2.1 (by simp),
    (C5_amended_defaults []).2.2.2.2.2.2.2.2.2 (by simp)⟩

/-- C6: after the suppression step, a frame result whose gesture is PEEKABOO
has expression NONE, whatever any backend reported; a frame result whose
gesture is not PEEKABOO keeps its merged expression unchanged. -/
theorem C6_peekaboo_suppression (detection : DetectionResult) :
    ((suppress_peekaboo detection).gesture = Gesture.peekaboo →
      (suppress_peekaboo detection).expression = Expression.none) ∧
    (detection.gesture ≠ Gesture.peekaboo →
      (suppress_peekaboo detection).expression = detection.expression) := by
  unfold suppress_peekaboo
  split_ifs with h
  · exact ⟨fun _ => rfl, fun hne => absurd h hne⟩
  · exact ⟨fun hg => absurd hg h, fun _ => rfl⟩

def dPeek : DetectionResult :=
  { gesture := Gesture.peekaboo, expression := Expression.smile }

def dNoPeek : DetectionResult := { expression := Expression.smile }

/-- Witness for C6 at a peekaboo frame with a reported smile and at a
non-peekaboo frame. -/
theorem C6_witness :
    (suppress_peekaboo dPeek).expression = Expression.none ∧
    (suppress_peekaboo dNoPeek).expression = dNoPeek.expression :=
  ⟨(C6_peekaboo_suppression dPeek).1 (by decide),
    (C6_peekaboo_suppression dNoPeek).2 (by decide)⟩

/-- C4 counterexample: in the per-frame detection step, a raising backend
that is not the expression detector aborts the whole step — here the second
of five backends raises and the step returns the error instead of a merged
output list, so the error is propagated and the frame dropped. -/
theorem C4_counterexample :
    detectFrame [Except.ok emptyObs, Except.error (), Except.ok emptyObs,
      Except.ok emptyObs, Except.ok emptyObs] = Except.error () := rfl

/-- C4 (amended): only the expression backend recovers a raising analysis
call, by holding its previous value for the field and leaving its held state
unchanged; an error raised by any backend in the per-frame detection step
propagates out of the step, which has no handler. -/
theorem C4_amended_error_recovery :
    (∀ st : ExpressionDetectorState,
      (ExpressionDetector.detect st (Except.error ())).2 Key.expression =
        some st.last_result ∧
      (ExpressionDetector.detect st (Except.error ())).1.last_result =
        st.last_result) ∧
    (∀ (calls : List (Except Unit Obs)) (e : Unit),
      Except.error e ∈ calls →
      ∃ e2, detectFrame calls = Except.error e2) := by
  constructor
  · intro st
    unfold ExpressionDetector.detect
    dsimp only
    split_ifs with h
    · exact ⟨rfl, rfl⟩
    · exact ⟨rfl, rfl⟩
  · intro calls e hmem
    induction calls with
    | nil => exact absurd hmem (List.not_mem_nil _)
    | cons c rest ih =>
      rw [List.mem_cons] at hmem
      cases hmem with
      | inl h =>
        rw [← h]
        exact ⟨e, rfl⟩
      | inr h =>
        obtain ⟨e2, he2⟩ := ih h
        cases c with
        | error e3 => exact ⟨e3, rfl⟩
        | ok out =>
          simp only [detectFrame]
          rw [he2]
          exact ⟨e2, rfl⟩

/-- A concrete expression detector state holding a smile. -/
def stSmile : ExpressionDetectorState :=
  { analyze_every_n_frames := 3, frame_count := 0
    last_result := Expression.smile }

/-- Witness for C4 (amended) at a concrete held state and a concrete
one-backend pipeline whose call raises. -/
theorem C4_witness :
    ((ExpressionDetector.detect stSmile (Except.error ())).2 Key.expression =
      some stSmile.last_result ∧
    (ExpressionDetector.detect stSmile (Except.error ())).1.last_result =
      stSmile.last_result) ∧
    Except.error () ∈ [Except.error (() : Unit) (α := Obs)] ∧
    (∃ e2, detectFrame [Except.error ()] = Except.error e2) :=
  ⟨C4_amended_error_recovery.1 stSmile, by simp,
    C4_amended_error_recovery.2 [Except.error ()] () (by simp)⟩

/-- Witness for C2 (amended) on a one-call trace with capacity one. -/
theorem C2_amended_witness :
    1 ≤ 1 ∧ (0 : ℚ) < 1 ∧ 0 < [rawClose].length ∧
    (∃ outs sf outsk sk,
      runTrace (StateManager.init 1 1 0) [rawClose] 0 = some (outs, sf) ∧
      runTrace (StateManager.init 1 1 0) ([rawClose].take 0) 0 =
        some (outsk, sk) ∧
      (∀ V : Proximity,
        (("proximity", V.value) ∈ outs.getD 0 []) ↔
          (lastN 1 (([rawClose].take (0 + 1)).map (fun r => r.proximity)) =
            List.replicate 1 V ∧ sk.confirmed.proximity ≠ V)) ∧
      (∀ V : Expression,
        (("expression", V.value) ∈ outs.getD 0 []) ↔
          (lastN 1 (([rawClose].take (0 + 1)).map (fun r => r.expression)) =
            List.replicate 1 V ∧ sk.confirmed.expression ≠ V)) ∧
      (∀ V : Gesture,
        (("gesture", V.value) ∈ outs.getD 0 []) ↔
          (lastN 1 (([rawClose].take (0 + 1)).map (fun r => r.gesture)) =
            List.replicate 1 V ∧ sk.confirmed.gesture ≠ V))) :=
  ⟨by decide, by simp, by decide,
    C2_amended_unanimous_confirmation 1 1 0 [rawClose] 0 (by decide)
      (by simp) (by decide)⟩

/-- The state a fresh capacity-one manager reaches after one close frame. -/
def sAfterC10 : StateManager :=
  { debounce_frames := 1
    idle_timeout_seconds := 5
    confirmed := { proximity := Proximity.close }
    hist_proximity := [Proximity.close]
    hist_expression := [Expression.none]
    hist_gesture := [Gesture.none]
    last_face_seen_at := 0
    idle := false }

/-- Witness for C10 on one concrete update call. -/
theorem C10_witness :
    (StateManager.init 1 5 0).update rawClose 0 =
      some ([("proximity", "close")], sAfterC10) ∧
    (((StateManager.init 1 5 0).hist_proximity.length ≤
          (StateManager.init 1 5 0).debounce_frames →
        sAfterC10.hist_proximity.length ≤
          (StateManager.init 1 5 0).debounce_frames) ∧
      (sAfterC10.hist_proximity = (StateManager.init 1 5 0).hist_proximity ∨
        sAfterC10.hist_proximity = [] ∨
        sAfterC10.hist_proximity =
          pushWindow (StateManager.init 1 5 0).debounce_frames
            (StateManager.init 1 5 0).hist_proximity rawClose.proximity)) ∧
    (((StateManager.init 1 5 0).hist_expression.length ≤
          (StateManager.init 1 5 0).debounce_frames →
        sAfterC10.hist_expression.length ≤
          (StateManager.init 1 5 0).debounce_frames) ∧
      (sAfterC10.hist_expression =
          (StateManager.init 1 5 0).hist_expression ∨
        sAfterC10.hist_expression = [] ∨
        sAfterC10.hist_expression =
          pushWindow (StateManager.init 1 5 0).debounce_frames
            (StateManager.init 1 5 0).hist_expression
            rawClose.expression)) ∧
    ((StateManager.init 1 5 0).hist_gesture.length ≤
          (StateManager.init 1 5 0).debounce_frames →
        sAfterC10.hist_gesture.length ≤
          (StateManager.init 1 5 0).debounce_frames) ∧
      (sAfterC10.hist_gesture = (StateManager.init 1 5 0).hist_gesture ∨
        sAfterC10.hist_gesture = [] ∨
        sAfterC10.hist_gesture =
          pushWindow (StateManager.init 1 5 0).debounce_frames
            (StateManager.init 1 5 0).hist_gesture rawClose.gesture) := by
  have hupd : (StateManager.init 1 5 0).update rawClose 0 =
      some ([("proximity", "close")], sAfterC10) := by
    rw [update_active (StateManager.init 1 5 0) rawClose 0 (by decide)
      (by simp [trackFace, rawClose, StateManager.init])]
    rfl
  exact ⟨hupd, C10_window_invariant.2.1 (StateManager.init 1 5 0) rawClose 0
    [("proximity", "close")] sAfterC10 hupd⟩

end ShyLight
